import Mathlib

/-!
Shallow embedding of the gardener Worker extension component
(pkg/component/extensions/worker/worker.go) and of the monitoring cleanup helper
(deleteAlertmanager), together with theorems checking the specification claims.

Kubernetes client effects (Get, GetAndCreateOrMergePatch, the extensions framework
calls) are modelled by injecting their outcomes as arguments and by recording the
calls the code issues as explicit data.  time.Duration values are natural numbers
of nanoseconds; metav1.Time values are integers (nanoseconds since the epoch);
byte slices are strings or lists of naturals.
-/

set_option autoImplicit false

namespace GardenerWorker

/-- runtime.RawExtension: an opaque raw payload, modelled as a list of bytes. -/
structure RawExtension where
  raw : List Nat
deriving DecidableEq

/-- metav1.Time, modelled as nanoseconds since the epoch; Go Time.After is strict
less-than on this representation. -/
abbrev MTime := Int

/-- client.ObjectKey: name and namespace of an object. -/
structure ObjectKey where
  name : String
  nspace : String
deriving DecidableEq

/-- Modelled constant v1beta1constants.GardenerOperation (constants package is not
in the sources). -/
def GardenerOperation : String := "gardener.cloud/operation"

/-- Modelled constant v1beta1constants.GardenerTimestamp (constants package is not
in the sources). -/
def GardenerTimestamp : String := "gardener.cloud/timestamp"

/-- Modelled constant v1beta1constants.GardenerOperationReconcile (constants package
is not in the sources). -/
def GardenerOperationReconcile : String := "reconcile"

/-- Modelled constant v1beta1constants.SecretNameCloudProvider (constants package is
not in the sources). -/
def SecretNameCloudProvider : String := "cloudprovider"

/-- Modelled constant v1beta1constants.DataTypeMachineState (constants package is not
in the sources). -/
def DataTypeMachineState : String := "machine-state"

/-- Modelled constant extensionsv1alpha1.WorkerResource, the extension kind string. -/
def WorkerResourceKind : String := "Worker"

/-- Modelled constant v1beta1constants.StatefulSetNameAlertManager (constants package
is not in the sources). -/
def StatefulSetNameAlertManager : String := "alertmanager"

/-- one second in nanoseconds (time.Second). -/
def second : Nat := 1000000000

/-- one minute in nanoseconds (time.Minute). -/
def minute : Nat := 60 * second

/-- DefaultInterval is the default interval for retry operations. -/
def DefaultInterval : Nat := 5 * second

/-- DefaultSevereThreshold is the default threshold until an error reported by
another component is treated as severe. -/
def DefaultSevereThreshold : Nat := 30 * second

/-- DefaultTimeout is the default timeout for a successful reconciliation of a
Worker resource. -/
def DefaultTimeout : Nat := 10 * minute

/-- gardencorev1beta1.MachineType: the fields used by deploy (quantities are kept
as opaque strings). -/
structure MachineType where
  name : String
  cpu : String
  gpu : String
  memory : String
deriving DecidableEq

/-- gardencorev1beta1.Volume. -/
structure CoreVolume where
  name : Option String
  type : Option String
  volumeSize : String
  encrypted : Option Bool
deriving DecidableEq

/-- gardencorev1beta1.DataVolume. -/
structure CoreDataVolume where
  name : String
  type : Option String
  volumeSize : String
  encrypted : Option Bool
deriving DecidableEq

/-- gardencorev1beta1.ShootMachineImage: pointers that deploy dereferences
unconditionally are modelled as plain values. -/
structure ShootMachineImage where
  name : String
  version : String
deriving DecidableEq

/-- gardencorev1beta1.Machine. -/
structure Machine where
  type : String
  image : ShootMachineImage
  architecture : Option String
deriving DecidableEq

/-- gardencorev1beta1.WorkerKubernetes: only the Version pointer is used. -/
structure PoolKubernetes where
  version : Option String
deriving DecidableEq

/-- intstr.IntOrString. -/
inductive IntOrString where
  | intVal (n : Int)
  | strVal (s : String)
deriving DecidableEq

/-- corev1.Taint, modelled with its three string fields. -/
structure Taint where
  key : String
  value : String
  effect : String
deriving DecidableEq

/-- gardencorev1beta1.Worker (a worker-pool entry of the shoot spec): the fields
read by deploy.  MachineControllerManagerSettings is pass-through data and is kept
opaque. -/
structure CoreWorkerPool where
  name : String
  minimum : Int
  maximum : Int
  maxSurge : IntOrString
  maxUnavailable : IntOrString
  annotations : List (String × String)
  taints : List Taint
  machine : Machine
  volume : Option CoreVolume
  dataVolumes : List CoreDataVolume
  kubeletDataVolumeName : Option String
  kubernetes : Option PoolKubernetes
  providerConfig : Option RawExtension
  zones : List String
  machineControllerManagerSettings : Option String
deriving DecidableEq

/-- extensionsv1alpha1.Volume. -/
structure ExtVolume where
  name : Option String
  type : Option String
  size : String
  encrypted : Option Bool
deriving DecidableEq

/-- extensionsv1alpha1.DataVolume. -/
structure ExtDataVolume where
  name : String
  type : Option String
  size : String
  encrypted : Option Bool
deriving DecidableEq

/-- extensionsv1alpha1.NodeTemplate: a capacity resource list (resource name to
quantity). -/
structure NodeTemplate where
  capacity : List (String × String)
deriving DecidableEq

/-- extensionsv1alpha1.MachineImage. -/
structure ExtMachineImage where
  name : String
  version : String
deriving DecidableEq

/-- extensionsv1alpha1.WorkerPool. -/
structure ExtWorkerPool where
  name : String
  minimum : Int
  maximum : Int
  maxSurge : IntOrString
  maxUnavailable : IntOrString
  annotations : List (String × String)
  labels : List (String × String)
  taints : List Taint
  machineType : String
  machineImage : ExtMachineImage
  nodeTemplate : Option NodeTemplate
  providerConfig : Option RawExtension
  userData : String
  volume : Option ExtVolume
  dataVolumes : List ExtDataVolume
  kubeletDataVolumeName : Option String
  kubernetesVersion : Option String
  zones : List String
  machineControllerManagerSettings : Option String
  architecture : Option String
deriving DecidableEq

/-- corev1.SecretReference. -/
structure SecretReference where
  name : String
  nspace : String
deriving DecidableEq

/-- extensionsv1alpha1.WorkerSpec (DefaultSpec.Type is inlined as the type field). -/
structure WorkerSpec where
  type : String
  region : String
  secretRef : SecretReference
  sshPublicKey : String
  infrastructureProviderStatus : Option RawExtension
  pools : List ExtWorkerPool
deriving DecidableEq

/-- metav1.ObjectMeta: the fields relevant to the component. -/
structure ObjectMeta where
  name : String
  nspace : String
  labels : List (String × String)
  annotations : List (String × String)
deriving DecidableEq

/-- extensionsv1alpha1.MachineDeployment, kept opaque apart from its name. -/
structure MachineDeployment where
  name : String
deriving DecidableEq

/-- extensionsv1alpha1.WorkerStatus: the fields read by the component. -/
structure WorkerStatus where
  machineDeployments : List MachineDeployment
  machineDeploymentsLastUpdateTime : Option MTime
deriving DecidableEq

/-- extensionsv1alpha1.Worker, the extension custom resource. -/
structure WorkerResource where
  metadata : ObjectMeta
  spec : WorkerSpec
  status : WorkerStatus
deriving DecidableEq

/-- the zero value of WorkerSpec. -/
def emptyWorkerSpec : WorkerSpec :=
  { type := "", region := "", secretRef := { name := "", nspace := "" },
    sshPublicKey := "", infrastructureProviderStatus := none, pools := [] }

/-- the zero value of WorkerStatus. -/
def emptyWorkerStatus : WorkerStatus :=
  { machineDeployments := [], machineDeploymentsLastUpdateTime := none }

/-- the zero value of extensionsv1alpha1.Worker, as left by a not-found Get. -/
def emptyWorkerResource : WorkerResource :=
  { metadata := { name := "", nspace := "", labels := [], annotations := [] },
    spec := emptyWorkerSpec, status := emptyWorkerStatus }

/-- operatingsystemconfig Data: only the Content field is used. -/
structure OSCData where
  content : String
deriving DecidableEq

/-- operatingsystemconfig.OperatingSystemConfigs. -/
structure OperatingSystemConfigs where
  downloader : OSCData
  original : OSCData
deriving DecidableEq

/-- Values contains the values used to create a Worker resource. -/
structure Values where
  nspace : String
  name : String
  type : String
  region : String
  workers : List CoreWorkerPool
  kubernetesVersion : String
  machineTypes : List MachineType
  sshPublicKey : String
  infrastructureProviderStatus : Option RawExtension
  workerNameToOperatingSystemConfigsMap : List (String × OperatingSystemConfigs)
  nodeLocalDNSEnabled : Bool
deriving DecidableEq

/-- the worker component struct: values, wait configuration and the tracked Worker
object together with the recorded machine-deployment data. -/
structure WorkerComponent where
  values : Values
  waitInterval : Nat
  waitSevereThreshold : Nat
  waitTimeout : Nat
  worker : WorkerResource
  machineDeployments : List MachineDeployment
  machineDeploymentsLastUpdateTime : Option MTime
deriving DecidableEq

/-- New creates a new instance of the worker component. -/
def New (values : Values) (waitInterval waitSevereThreshold waitTimeout : Nat) :
    WorkerComponent :=
  { values := values
    waitInterval := waitInterval
    waitSevereThreshold := waitSevereThreshold
    waitTimeout := waitTimeout
    worker :=
      { metadata :=
          { name := values.name, nspace := values.nspace, labels := [], annotations := [] }
        spec := emptyWorkerSpec
        status := emptyWorkerStatus }
    machineDeployments := []
    machineDeploymentsLastUpdateTime := none }

/-- Go map lookup on an association list: the first entry with the given key. -/
def lookupMap {α : Type} : List (String × α) → String → Option α
  | [], _ => none
  | (k, v) :: rest, key => if k = key then some v else lookupMap rest key

/-- metav1.SetMetaDataAnnotation: set a key in the annotations map, modelled as
update-first-or-append on the association list. -/
def setAnn : List (String × String) → String → String → List (String × String)
  | [], k, v => [(k, v)]
  | (k0, v0) :: rest, k, v =>
    if k0 = k then (k, v) :: rest else (k0, v0) :: setAnn rest k v

/-- Modelled from the spec: v1beta1helper.FindMachineTypeByName (the helper package
is not in the sources); returns the first machine type with the given name, if
any. -/
def FindMachineTypeByName (l : List MachineType) (name : String) : Option MachineType :=
  l.find? (fun mt => mt.name == name)

/-- findNodeTemplateAndMachineTypeByPoolName: the node template and machine type of
the first pool of the given Worker object with the given name, and (none, "") when
no pool matches. -/
def findNodeTemplateAndMachineTypeByPoolName (obj : WorkerResource) (poolName : String) :
    Option NodeTemplate × String :=
  match obj.spec.pools.find? (fun p => p.name == poolName) with
  | some p => (p.nodeTemplate, p.machineType)
  | none => (none, "")

/-- the node template built from a CloudProfile machine type's CPU, GPU and memory
capacities. -/
def nodeTemplateOfMachineType (md : MachineType) : NodeTemplate :=
  { capacity := [("cpu", md.cpu), ("gpu", md.gpu), ("memory", md.memory)] }

/-- the body of the pool loop of deploy: build one extensionsv1alpha1.WorkerPool
from one entry of Values.Workers.  nodeLabels stands for the external helper
gardenerutils.NodeLabelsForWorkerPool, which is not in the sources. -/
def buildPool (values : Values)
    (nodeLabels : CoreWorkerPool → Bool → List (String × String))
    (obj : WorkerResource) (workerPool : CoreWorkerPool) : ExtWorkerPool :=
  let volume : Option ExtVolume :=
    workerPool.volume.map fun v =>
      { name := v.name, type := v.type, size := v.volumeSize, encrypted := v.encrypted }
  let dataVolumes : List ExtDataVolume :=
    workerPool.dataVolumes.map fun d =>
      { name := d.name, type := d.type, size := d.volumeSize, encrypted := d.encrypted }
  let pConfig : Option RawExtension :=
    workerPool.providerConfig.map fun p => { raw := p.raw }
  let userData : String :=
    match lookupMap values.workerNameToOperatingSystemConfigsMap workerPool.name with
    | some val => val.downloader.content
    | none => ""
  let workerPoolKubernetesVersion : String :=
    match workerPool.kubernetes with
    | some k =>
      match k.version with
      | some v => v
      | none => values.kubernetesVersion
    | none => values.kubernetesVersion
  let found := findNodeTemplateAndMachineTypeByPoolName obj workerPool.name
  let nodeTemplate : Option NodeTemplate :=
    if found.1 = none ∨ found.2 ≠ workerPool.machine.type then
      match FindMachineTypeByName values.machineTypes workerPool.machine.type with
      | some machineDetails => some (nodeTemplateOfMachineType machineDetails)
      | none => none
    else found.1
  { name := workerPool.name
    minimum := workerPool.minimum
    maximum := workerPool.maximum
    maxSurge := workerPool.maxSurge
    maxUnavailable := workerPool.maxUnavailable
    annotations := workerPool.annotations
    labels := nodeLabels workerPool values.nodeLocalDNSEnabled
    taints := workerPool.taints
    machineType := workerPool.machine.type
    machineImage := { name := workerPool.machine.image.name
                      version := workerPool.machine.image.version }
    nodeTemplate := nodeTemplate
    providerConfig := pConfig
    userData := userData
    volume := volume
    dataVolumes := dataVolumes
    kubeletDataVolumeName := workerPool.kubeletDataVolumeName
    kubernetesVersion := some workerPoolKubernetesVersion
    zones := workerPool.zones
    machineControllerManagerSettings := workerPool.machineControllerManagerSettings
    architecture := workerPool.machine.architecture }

/-- the pools slice built by deploy, one entry per entry of Values.Workers, in
order. -/
def buildPools (values : Values)
    (nodeLabels : CoreWorkerPool → Bool → List (String × String))
    (obj : WorkerResource) : List ExtWorkerPool :=
  values.workers.map (buildPool values nodeLabels obj)

/-- the desired WorkerSpec assigned inside the mutate function of deploy;
workerNamespace is the namespace of the tracked Worker object. -/
def desiredWorkerSpec (values : Values)
    (nodeLabels : CoreWorkerPool → Bool → List (String × String))
    (obj : WorkerResource) (workerNamespace : String) : WorkerSpec :=
  { type := values.type
    region := values.region
    secretRef := { name := SecretNameCloudProvider, nspace := workerNamespace }
    sshPublicKey := values.sshPublicKey
    infrastructureProviderStatus := values.infrastructureProviderStatus
    pools := buildPools values nodeLabels obj }

/-- the mutate function passed to GetAndCreateOrMergePatch: set the operation and
timestamp annotations and overwrite the spec; nowStr stands for the formatted
TimeNow().UTC() value. -/
def deployMutate (values : Values)
    (nodeLabels : CoreWorkerPool → Bool → List (String × String))
    (obj : WorkerResource) (operation nowStr : String)
    (wk : WorkerResource) : WorkerResource :=
  { wk with
    metadata :=
      { wk.metadata with
        annotations :=
          setAnn (setAnn wk.metadata.annotations GardenerOperation operation)
            GardenerTimestamp nowStr }
    spec := desiredWorkerSpec values nodeLabels obj wk.metadata.nspace }

/-- Kubernetes client errors, reduced to the single distinction deploy makes. -/
inductive KError where
  | notFound
  | other (msg : String)
deriving DecidableEq

/-- apierrors.IsNotFound. -/
def KError.isNotFound : KError → Bool
  | .notFound => true
  | .other _ => false

/-- the observable outcome of one deploy call: the mutated Worker passed to
GetAndCreateOrMergePatch when that call was issued, the returned object and error,
and the component state afterwards. -/
structure DeployOutcome where
  patchCall : Option WorkerResource
  retObj : Option WorkerResource
  retErr : Option KError
  component : WorkerComponent
deriving DecidableEq

/-- the part of deploy after the initial Get: build the pools, issue the
get-and-create-or-merge-patch with the mutate function, record the last-update
time from the previously retrieved object, and return the tracked worker with the
patch error. -/
def deployRest (w : WorkerComponent)
    (nodeLabels : CoreWorkerPool → Bool → List (String × String))
    (obj : WorkerResource) (patchResult : Except KError Unit)
    (operation nowStr : String) : DeployOutcome :=
  let patched := deployMutate w.values nodeLabels obj operation nowStr w.worker
  { patchCall := some patched
    retObj := some patched
    retErr := match patchResult with
      | .ok _ => none
      | .error e => some e
    component :=
      { w with
        worker := patched
        machineDeploymentsLastUpdateTime := obj.status.machineDeploymentsLastUpdateTime } }

/-- deploy: the initial Get outcome and the patch outcome are injected; a
not-found Get leaves the zero Worker object, any other Get error is returned
immediately with no patch call. -/
def deploy (w : WorkerComponent)
    (nodeLabels : CoreWorkerPool → Bool → List (String × String))
    (getResult : Except KError WorkerResource) (patchResult : Except KError Unit)
    (operation nowStr : String) : DeployOutcome :=
  match getResult with
  | .error e =>
    if e.isNotFound then
      deployRest w nodeLabels emptyWorkerResource patchResult operation nowStr
    else
      { patchCall := none, retObj := none, retErr := some e, component := w }
  | .ok obj => deployRest w nodeLabels obj patchResult operation nowStr

/-- Deploy: deploy with the reconcile gardener operation. -/
def Deploy (w : WorkerComponent)
    (nodeLabels : CoreWorkerPool → Bool → List (String × String))
    (getResult : Except KError WorkerResource) (patchResult : Except KError Unit)
    (nowStr : String) : DeployOutcome :=
  deploy w nodeLabels getResult patchResult GardenerOperationReconcile nowStr

/-- gardencorev1beta1.GardenerResourceData: the fields read by Restore. -/
structure GardenerResourceData where
  name : String
  rtype : String
  data : RawExtension
deriving DecidableEq

/-- gardencorev1beta1.ExtensionResourceState: the fields written by Restore
(Resources is omitted; Restore only sets Kind, Name and State). -/
structure ExtensionResourceState where
  kind : String
  name : Option String
  purpose : Option String
  state : Option RawExtension
deriving DecidableEq

/-- gardencorev1beta1.ShootStateSpec. -/
structure ShootStateSpec where
  gardener : List GardenerResourceData
  extensions : List ExtensionResourceState
deriving DecidableEq

/-- gardencorev1beta1.ShootState. -/
structure ShootState where
  spec : ShootStateSpec
deriving DecidableEq

/-- Modelled from the spec: GardenerResourceDataList.Get of the core v1beta1
helper package (not in the sources); returns the first entry whose name equals the
given name, if any. -/
def gardenerResourceDataListGet (l : List GardenerResourceData) (name : String) :
    Option GardenerResourceData :=
  l.find? (fun d => d.name == name)

/-- Modelled from the spec: ExtensionResourceStateList.Upsert of the core v1beta1
helper package (not in the sources); overwrite the state of the first entry with
the same kind, name and purpose, or append the new entry at the end. -/
def extensionResourceStateListUpsert :
    List ExtensionResourceState → ExtensionResourceState → List ExtensionResourceState
  | [], e => [e]
  | x :: rest, e =>
    if x.kind = e.kind ∧ x.name = e.name ∧ x.purpose = e.purpose then
      { x with state := e.state } :: rest
    else
      x :: extensionResourceStateListUpsert rest e

/-- the observable outcome of one Restore call: the caller's ShootState object
after the call (the code only writes to a deep copy), the ShootState handed to
RestoreExtensionWithDeployFunction when that call was made, and the decompression
error returned otherwise. -/
structure RestoreOutcome where
  callerState : ShootState
  frameworkCall : Option ShootState
  retErr : Option String
deriving DecidableEq

/-- Restore: work on a deep copy of the ShootState; when the gardener resource
data list has a machine-state entry, decompress it (the external
shootstate.DecompressMachineState is injected as the decompress argument) and
upsert a Worker extension resource state carrying the tracked worker's name, then
delegate the copy to the framework's restore-with-deploy function. -/
def Restore (w : WorkerComponent) (decompress : List Nat → Except String (List Nat))
    (shootState : ShootState) : RestoreOutcome :=
  let shootStateCopy := shootState
  let gardenerData := shootStateCopy.spec.gardener
  match gardenerResourceDataListGet gardenerData DataTypeMachineState with
  | some machineState =>
    if machineState.rtype = DataTypeMachineState then
      match decompress machineState.data.raw with
      | .error e => { callerState := shootState, frameworkCall := none, retErr := some e }
      | .ok machineStateDecompressed =>
        let extensionsData :=
          extensionResourceStateListUpsert shootStateCopy.spec.extensions
            { kind := WorkerResourceKind
              name := some w.worker.metadata.name
              purpose := none
              state := some { raw := machineStateDecompressed } }
        let shootStateCopy2 :=
          { shootStateCopy with
            spec := { shootStateCopy.spec with extensions := extensionsData } }
        { callerState := shootState, frameworkCall := some shootStateCopy2, retErr := none }
    else
      { callerState := shootState, frameworkCall := some shootStateCopy, retErr := none }
  | none => { callerState := shootState, frameworkCall := some shootStateCopy, retErr := none }

/-- the framework calls the lifecycle operations delegate to, recorded with the
arguments the component passes. -/
inductive FrameworkCall where
  | migrateExtensionObject (key : ObjectKey)
  | deleteExtensionObject (key : ObjectKey)
  | waitUntilExtensionObjectReady (key : ObjectKey) (kind : String)
      (interval severeThreshold timeout : Nat)
  | waitUntilObjectReadyWithHealth (key : ObjectKey) (kind : String)
      (interval severeThreshold timeout : Nat)
  | waitUntilExtensionObjectMigrated (key : ObjectKey) (kind : String)
      (interval timeout : Nat)
  | waitUntilExtensionObjectDeleted (key : ObjectKey) (kind : String)
      (interval timeout : Nat)
deriving DecidableEq

/-- the object key of the tracked Worker object. -/
def objectKeyOf (wk : WorkerResource) : ObjectKey :=
  { name := wk.metadata.name, nspace := wk.metadata.nspace }

/-- Migrate delegates to extensions.MigrateExtensionObject on the tracked Worker. -/
def Migrate (w : WorkerComponent) : FrameworkCall :=
  .migrateExtensionObject (objectKeyOf w.worker)

/-- Destroy delegates to extensions.DeleteExtensionObject on the tracked Worker. -/
def Destroy (w : WorkerComponent) : FrameworkCall :=
  .deleteExtensionObject (objectKeyOf w.worker)

/-- Wait delegates to extensions.WaitUntilExtensionObjectReady with the configured
interval, severe threshold and timeout. -/
def Wait (w : WorkerComponent) : FrameworkCall :=
  .waitUntilExtensionObjectReady (objectKeyOf w.worker) WorkerResourceKind
    w.waitInterval w.waitSevereThreshold w.waitTimeout

/-- WaitUntilWorkerStatusMachineDeploymentsUpdated delegates to
extensions.WaitUntilObjectReadyWithHealthFunction with the configured interval,
severe threshold and timeout. -/
def WaitUntilWorkerStatusMachineDeploymentsUpdated (w : WorkerComponent) : FrameworkCall :=
  .waitUntilObjectReadyWithHealth (objectKeyOf w.worker) WorkerResourceKind
    w.waitInterval w.waitSevereThreshold w.waitTimeout

/-- WaitMigrate delegates to extensions.WaitUntilExtensionObjectMigrated with the
configured interval and timeout. -/
def WaitMigrate (w : WorkerComponent) : FrameworkCall :=
  .waitUntilExtensionObjectMigrated (objectKeyOf w.worker) WorkerResourceKind
    w.waitInterval w.waitTimeout

/-- WaitCleanup delegates to extensions.WaitUntilExtensionObjectDeleted with the
configured interval and timeout. -/
def WaitCleanup (w : WorkerComponent) : FrameworkCall :=
  .waitUntilExtensionObjectDeleted (objectKeyOf w.worker) WorkerResourceKind
    w.waitInterval w.waitTimeout

/-- the argument of the health-check function: either a Worker object or an object
of some other runtime type (carrying its type name for the error message). -/
inductive ClientObject where
  | workerObj (wk : WorkerResource)
  | otherObj (typeName : String)
deriving DecidableEq

/-- checkWorkerStatusMachineDeploymentsUpdated: nil (none) exactly when the object
is a Worker whose status last-update time is set and is strictly after the time
recorded in the component before reconciliation (or no time was recorded);
otherwise an error message.  The recorded argument is the component field
machineDeploymentsLastUpdateTime. -/
def checkWorkerStatusMachineDeploymentsUpdated (recorded : Option MTime)
    (o : ClientObject) : Option String :=
  match o with
  | .otherObj typeName =>
    some ("expected *extensionsv1alpha1.Worker but got " ++ typeName)
  | .workerObj obj =>
    match obj.status.machineDeploymentsLastUpdateTime, recorded with
    | some _, none => none
    | some t, some r =>
      if r < t then none
      else some "worker status machineDeployments has not been updated"
    | none, _ => some "worker status machineDeployments has not been updated"

/-- a reference to one Kubernetes object, as identified by a delete call. -/
structure ObjectRef where
  kind : String
  name : String
  nspace : String
deriving DecidableEq

/-- deleteAlertmanager: the list of objects handed to
kubernetesutils.DeleteObjects, built from the namespace alone. -/
def deleteAlertmanager (namespaceName : String) : List ObjectRef :=
  [ { kind := "StatefulSet", name := StatefulSetNameAlertManager, nspace := namespaceName },
    { kind := "Ingress", name := "alertmanager", nspace := namespaceName },
    { kind := "Service", name := "alertmanager-client", nspace := namespaceName },
    { kind := "Service", name := "alertmanager", nspace := namespaceName },
    { kind := "Secret", name := "alertmanager-basic-auth", nspace := namespaceName },
    { kind := "Secret", name := "alertmanager-config", nspace := namespaceName },
    { kind := "PersistentVolumeClaim", name := "alertmanager-db-alertmanager-0",
      nspace := namespaceName } ]

/-! Helper lemmas about the annotation map model. -/

theorem lookupMap_setAnn_self (m : List (String × String)) (k v : String) :
    lookupMap (setAnn m k v) k = some v := by
  induction m with
  | nil => simp [setAnn, lookupMap]
  | cons p rest ih =>
    obtain ⟨k0, v0⟩ := p
    by_cases h : k0 = k
    · simp [setAnn, h, lookupMap]
    · simp [setAnn, h, lookupMap, ih]

theorem lookupMap_setAnn_ne (m : List (String × String)) (k v key : String)
    (h : key ≠ k) : lookupMap (setAnn m k v) key = lookupMap m key := by
  induction m with
  | nil => simp [setAnn, lookupMap, Ne.symm h]
  | cons p rest ih =>
    obtain ⟨k0, v0⟩ := p
    by_cases h0 : k0 = k
    · subst h0
      simp [setAnn, lookupMap, Ne.symm h]
    · simp only [setAnn, if_neg h0, lookupMap]
      by_cases hk : k0 = key
      · simp [hk]
      · simp [hk, ih]

/-! Sample concrete inputs used by the witness theorems. -/

/-- a sample worker pool for witnesses. -/
def samplePool : CoreWorkerPool :=
  { name := "pool-a"
    minimum := 1
    maximum := 3
    maxSurge := .intVal 1
    maxUnavailable := .intVal 0
    annotations := [("a", "b")]
    taints := []
    machine :=
      { type := "m5.large"
        image := { name := "gardenlinux", version := "1.0" }
        architecture := some "amd64" }
    volume := none
    dataVolumes := []
    kubeletDataVolumeName := none
    kubernetes := none
    providerConfig := none
    zones := ["z1"]
    machineControllerManagerSettings := none }

/-- sample values for witnesses. -/
def sampleValues : Values :=
  { nspace := "shoot--foo--bar"
    name := "worker"
    type := "aws"
    region := "eu-west-1"
    workers := [samplePool]
    kubernetesVersion := "1.27.0"
    machineTypes := [{ name := "m5.large", cpu := "2", gpu := "0", memory := "8Gi" }]
    sshPublicKey := "ssh-rsa key"
    infrastructureProviderStatus := none
    workerNameToOperatingSystemConfigsMap :=
      [("pool-a", { downloader := { content := "osc-content" }
                    original := { content := "orig" } })]
    nodeLocalDNSEnabled := false }

/-- a sample component for witnesses. -/
def sampleComponent : WorkerComponent :=
  New sampleValues DefaultInterval DefaultSevereThreshold DefaultTimeout

/-- a sample stand-in for the external node-labels helper. -/
def sampleNodeLabels : CoreWorkerPool → Bool → List (String × String) :=
  fun _ _ => [("node-label", "v")]

/-! Claim theorems. -/

/-- C2: if the initial Get of the existing Worker fails with a not-found error,
deploy proceeds treating the object as absent (the outcome is that of the rest of
deploy on the zero Worker object, and no error is returned when the patch
succeeds); on any other Get error, deploy returns that error immediately and
issues no patch call. -/
theorem C2_deploy_get_error (w : WorkerComponent)
    (nodeLabels : CoreWorkerPool → Bool → List (String × String))
    (e : KError) (patchResult : Except KError Unit) (operation nowStr : String) :
    (e.isNotFound = true →
      deploy w nodeLabels (Except.error e) patchResult operation nowStr =
        deployRest w nodeLabels emptyWorkerResource patchResult operation nowStr ∧
      (deploy w nodeLabels (Except.error e) patchResult operation nowStr).patchCall.isSome
        = true ∧
      (patchResult = Except.ok () →
        (deploy w nodeLabels (Except.error e) patchResult operation nowStr).retErr
          = none)) ∧
    (e.isNotFound = false →
      deploy w nodeLabels (Except.error e) patchResult operation nowStr =
        { patchCall := none, retObj := none, retErr := some e, component := w }) := by
  constructor
  · intro hnf
    refine ⟨by simp [deploy, hnf], by simp [deploy, hnf, deployRest], ?_⟩
    intro hp
    simp [deploy, hnf, deployRest, hp]
  · intro hnf
    simp [deploy, hnf]

/-- witness for C2 at a concrete component, for both the not-found and the other
error branch. -/
theorem C2_deploy_get_error_witness :
    deploy sampleComponent sampleNodeLabels (Except.error KError.notFound)
        (Except.ok ()) "reconcile" "t0" =
      deployRest sampleComponent sampleNodeLabels emptyWorkerResource
        (Except.ok ()) "reconcile" "t0" ∧
    deploy sampleComponent sampleNodeLabels (Except.error (KError.other "boom"))
        (Except.ok ()) "reconcile" "t0" =
      { patchCall := none, retObj := none, retErr := some (KError.other "boom"),
        component := sampleComponent } :=
  ⟨((C2_deploy_get_error sampleComponent sampleNodeLabels KError.notFound
      (Except.ok ()) "reconcile" "t0").1 rfl).1,
   (C2_deploy_get_error sampleComponent sampleNodeLabels (KError.other "boom")
      (Except.ok ()) "reconcile" "t0").2 rfl⟩

/-- C4: deleteAlertmanager issues delete calls for exactly the seven fixed
objects in the given namespace, and the list depends on nothing but the
namespace. -/
theorem C4_deleteAlertmanager_objects (namespaceName : String) :
    deleteAlertmanager namespaceName =
      [ { kind := "StatefulSet", name := "alertmanager", nspace := namespaceName },
        { kind := "Ingress", name := "alertmanager", nspace := namespaceName },
        { kind := "Service", name := "alertmanager-client", nspace := namespaceName },
        { kind := "Service", name := "alertmanager", nspace := namespaceName },
        { kind := "Secret", name := "alertmanager-basic-auth", nspace := namespaceName },
        { kind := "Secret", name := "alertmanager-config", nspace := namespaceName },
        { kind := "PersistentVolumeClaim", name := "alertmanager-db-alertmanager-0",
          nspace := namespaceName } ] := rfl

/-- C6: the component built by New tracks the Worker object named Values.Name in
Values.Namespace, and Migrate, Destroy, Wait, WaitMigrate and WaitCleanup
delegate to the corresponding framework call on exactly that object; Deploy keeps
acting on the same object. -/
theorem C6_lifecycle_delegation (values : Values) (i s t : Nat) :
    (New values i s t).worker.metadata.name = values.name ∧
    (New values i s t).worker.metadata.nspace = values.nspace ∧
    Migrate (New values i s t) =
      FrameworkCall.migrateExtensionObject { name := values.name, nspace := values.nspace } ∧
    Destroy (New values i s t) =
      FrameworkCall.deleteExtensionObject { name := values.name, nspace := values.nspace } ∧
    Wait (New values i s t) =
      FrameworkCall.waitUntilExtensionObjectReady
        { name := values.name, nspace := values.nspace } WorkerResourceKind i s t ∧
    WaitMigrate (New values i s t) =
      FrameworkCall.waitUntilExtensionObjectMigrated
        { name := values.name, nspace := values.nspace } WorkerResourceKind i t ∧
    WaitCleanup (New values i s t) =
      FrameworkCall.waitUntilExtensionObjectDeleted
        { name := values.name, nspace := values.nspace } WorkerResourceKind i t ∧
    (∀ (nodeLabels : CoreWorkerPool → Bool → List (String × String))
       (getResult : Except KError WorkerResource) (patchResult : Except KError Unit)
       (nowStr : String),
      (Deploy (New values i s t) nodeLabels getResult patchResult
          nowStr).component.worker.metadata.name = values.name ∧
      (Deploy (New values i s t) nodeLabels getResult patchResult
          nowStr).component.worker.metadata.nspace = values.nspace) := by
  refine ⟨rfl, rfl, rfl, rfl, rfl, rfl, rfl, ?_⟩
  intro nodeLabels getResult patchResult nowStr
  cases getResult with
  | ok obj => exact ⟨rfl, rfl⟩
  | error e =>
    cases e with
    | notFound => exact ⟨rfl, rfl⟩
    | other msg => exact ⟨rfl, rfl⟩

/-- C7: every waiting operation passes the triple fixed at construction to the
framework wait helper (interval, severe threshold and timeout for Wait and
WaitUntilWorkerStatusMachineDeploymentsUpdated; interval and timeout for
WaitMigrate and WaitCleanup), and the defaults are 5 seconds, 30 seconds and 10
minutes. -/
theorem C7_wait_time_bounds (values : Values) (i s t : Nat) :
    Wait (New values i s t) =
      FrameworkCall.waitUntilExtensionObjectReady
        { name := values.name, nspace := values.nspace } WorkerResourceKind i s t ∧
    WaitUntilWorkerStatusMachineDeploymentsUpdated (New values i s t) =
      FrameworkCall.waitUntilObjectReadyWithHealth
        { name := values.name, nspace := values.nspace } WorkerResourceKind i s t ∧
    WaitMigrate (New values i s t) =
      FrameworkCall.waitUntilExtensionObjectMigrated
        { name := values.name, nspace := values.nspace } WorkerResourceKind i t ∧
    WaitCleanup (New values i s t) =
      FrameworkCall.waitUntilExtensionObjectDeleted
        { name := values.name, nspace := values.nspace } WorkerResourceKind i t ∧
    DefaultInterval = 5 * second ∧
    DefaultSevereThreshold = 30 * second ∧
    DefaultTimeout = 10 * minute :=
  ⟨rfl, rfl, rfl, rfl, rfl, rfl, rfl⟩

/-- C8: the machine-deployments health check returns nil exactly for a Worker
object whose status last-update time is set and either no time was recorded
before reconciliation or the status time is strictly later; every other case
(wrong type, unset status time, or a status time not strictly later) yields an
error. -/
theorem C8_check_machine_deployments_updated (recorded : Option MTime) (o : ClientObject) :
    checkWorkerStatusMachineDeploymentsUpdated recorded o = none ↔
      ∃ wk t, o = ClientObject.workerObj wk ∧
        wk.status.machineDeploymentsLastUpdateTime = some t ∧
        (recorded = none ∨ ∃ r, recorded = some r ∧ r < t) := by
  cases o with
  | otherObj typeName => simp [checkWorkerStatusMachineDeploymentsUpdated]
  | workerObj wk =>
    cases h : wk.status.machineDeploymentsLastUpdateTime with
    | none =>
      cases recorded <;>
        simp [checkWorkerStatusMachineDeploymentsUpdated, h]
    | some t =>
      cases recorded with
      | none =>
        constructor
        · intro _
          exact ⟨wk, t, rfl, h, Or.inl rfl⟩
        · intro _
          simp [checkWorkerStatusMachineDeploymentsUpdated, h]
      | some r =>
        by_cases hrt : r < t
        · constructor
          · intro _
            exact ⟨wk, t, rfl, h, Or.inr ⟨r, rfl, hrt⟩⟩
          · intro _
            simp [checkWorkerStatusMachineDeploymentsUpdated, h, hrt]
        · constructor
          · intro hc
            exfalso
            have heval : checkWorkerStatusMachineDeploymentsUpdated (some r)
                (ClientObject.workerObj wk) =
                some "worker status machineDeployments has not been updated" := by
              simp [checkWorkerStatusMachineDeploymentsUpdated, h, hrt]
            rw [heval] at hc
            exact Option.noConfusion hc
          · rintro ⟨wk2, t2, hw, ht2, hrec⟩
            obtain rfl : wk = wk2 := by injection hw
            rw [h] at ht2
            rcases hrec with hn | ⟨r2, hr2, hlt⟩
            · exact Option.noConfusion hn
            · have hr : r = r2 := by injection hr2
              have htt : t = t2 := by injection ht2
              exact absurd (show r < t by rw [hr, htt]; exact hlt) hrt

/-- C10: Restore never mutates the caller's ShootState: the upsert is performed
on a deep copy only, so the caller-visible state after the call is the input
unchanged. -/
theorem C10_restore_preserves_caller_state (w : WorkerComponent)
    (decompress : List Nat → Except String (List Nat)) (st : ShootState) :
    (Restore w decompress st).callerState = st := by
  unfold Restore
  rcases h : gardenerResourceDataListGet st.spec.gardener DataTypeMachineState with _ | ms
  · simp [h]
  · by_cases ht : ms.rtype = DataTypeMachineState
    · rcases hd : decompress ms.data.raw with e | b <;> simp [h, ht, hd]
    · simp [h, ht]

/-- C5: the mutate function used by Deploy sets only the gardener operation
annotation (to reconcile), the gardener timestamp annotation (to the formatted
current time) and the Spec; the object's name, namespace, labels, every other
annotation and the status are unchanged. -/
theorem C5_deploy_mutation_frame (values : Values)
    (nodeLabels : CoreWorkerPool → Bool → List (String × String))
    (obj : WorkerResource) (nowStr : String) (wk : WorkerResource) :
    (deployMutate values nodeLabels obj GardenerOperationReconcile nowStr
        wk).metadata.name = wk.metadata.name ∧
    (deployMutate values nodeLabels obj GardenerOperationReconcile nowStr
        wk).metadata.nspace = wk.metadata.nspace ∧
    (deployMutate values nodeLabels obj GardenerOperationReconcile nowStr
        wk).metadata.labels = wk.metadata.labels ∧
    (deployMutate values nodeLabels obj GardenerOperationReconcile nowStr
        wk).status = wk.status ∧
    lookupMap (deployMutate values nodeLabels obj GardenerOperationReconcile nowStr
        wk).metadata.annotations GardenerOperation = some GardenerOperationReconcile ∧
    lookupMap (deployMutate values nodeLabels obj GardenerOperationReconcile nowStr
        wk).metadata.annotations GardenerTimestamp = some nowStr ∧
    (∀ key, key ≠ GardenerOperation → key ≠ GardenerTimestamp →
      lookupMap (deployMutate values nodeLabels obj GardenerOperationReconcile nowStr
          wk).metadata.annotations key = lookupMap wk.metadata.annotations key) ∧
    (deployMutate values nodeLabels obj GardenerOperationReconcile nowStr wk).spec =
      desiredWorkerSpec values nodeLabels obj wk.metadata.nspace := by
  refine ⟨rfl, rfl, rfl, rfl, ?_, ?_, ?_, rfl⟩
  · show lookupMap
      (setAnn (setAnn wk.metadata.annotations GardenerOperation GardenerOperationReconcile)
        GardenerTimestamp nowStr) GardenerOperation = some GardenerOperationReconcile
    rw [lookupMap_setAnn_ne _ _ _ _ (by decide), lookupMap_setAnn_self]
  · exact lookupMap_setAnn_self _ _ _
  · intro key h1 h2
    show lookupMap
      (setAnn (setAnn wk.metadata.annotations GardenerOperation GardenerOperationReconcile)
        GardenerTimestamp nowStr) key = lookupMap wk.metadata.annotations key
    rw [lookupMap_setAnn_ne _ _ _ _ h2, lookupMap_setAnn_ne _ _ _ _ h1]

/-- witness for C5 at a concrete object carrying an unrelated annotation. -/
theorem C5_deploy_mutation_frame_witness :
    lookupMap (deployMutate sampleValues sampleNodeLabels emptyWorkerResource
        GardenerOperationReconcile "2023-01-01T00:00:00Z"
        { metadata := { name := "worker", nspace := "shoot--foo--bar",
                        labels := [("l", "1")], annotations := [("other", "x")] }
          spec := emptyWorkerSpec
          status := emptyWorkerStatus }).metadata.annotations "other" = some "x" :=
  (C5_deploy_mutation_frame sampleValues sampleNodeLabels emptyWorkerResource
      "2023-01-01T00:00:00Z"
      { metadata := { name := "worker", nspace := "shoot--foo--bar",
                      labels := [("l", "1")], annotations := [("other", "x")] }
        spec := emptyWorkerSpec
        status := emptyWorkerStatus }).2.2.2.2.2.2.1 "other"
    (by decide) (by decide)

/-- the WorkerSpec the component's tracked worker carries after a deploy. -/
def deployedSpec (w : WorkerComponent)
    (nodeLabels : CoreWorkerPool → Bool → List (String × String))
    (getResult : Except KError WorkerResource) (patchResult : Except KError Unit)
    (operation nowStr : String) : WorkerSpec :=
  (deploy w nodeLabels getResult patchResult operation nowStr).component.worker.spec

/-- C1: deploy translates the configuration into a desired WorkerSpec whose type,
region, SSH public key and infrastructure provider status come from Values, whose
secret reference names the cloudprovider secret in the tracked Worker's own
namespace, and whose pools list has exactly one entry per Values worker, in
order, with the stated user data and Kubernetes version for each pool. -/
theorem C1_deploy_desired_spec (w : WorkerComponent)
    (nodeLabels : CoreWorkerPool → Bool → List (String × String))
    (obj : WorkerResource) (patchResult : Except KError Unit)
    (operation nowStr : String) :
    (deployedSpec w nodeLabels (Except.ok obj) patchResult operation nowStr).type
      = w.values.type ∧
    (deployedSpec w nodeLabels (Except.ok obj) patchResult operation nowStr).region
      = w.values.region ∧
    (deployedSpec w nodeLabels (Except.ok obj) patchResult operation nowStr).secretRef
      = { name := SecretNameCloudProvider, nspace := w.worker.metadata.nspace } ∧
    (deployedSpec w nodeLabels (Except.ok obj) patchResult operation nowStr).sshPublicKey
      = w.values.sshPublicKey ∧
    (deployedSpec w nodeLabels (Except.ok obj) patchResult operation
        nowStr).infrastructureProviderStatus = w.values.infrastructureProviderStatus ∧
    (deployedSpec w nodeLabels (Except.ok obj) patchResult operation
        nowStr).pools.length = w.values.workers.length ∧
    (∀ i (h1 : i < w.values.workers.length)
       (h2 : i < (deployedSpec w nodeLabels (Except.ok obj) patchResult operation
          nowStr).pools.length),
      ((deployedSpec w nodeLabels (Except.ok obj) patchResult operation
          nowStr).pools.get ⟨i, h2⟩).name = (w.values.workers.get ⟨i, h1⟩).name ∧
      ((deployedSpec w nodeLabels (Except.ok obj) patchResult operation
          nowStr).pools.get ⟨i, h2⟩).userData =
        (match lookupMap w.values.workerNameToOperatingSystemConfigsMap
            (w.values.workers.get ⟨i, h1⟩).name with
         | some val => val.downloader.content
         | none => "") ∧
      ((deployedSpec w nodeLabels (Except.ok obj) patchResult operation
          nowStr).pools.get ⟨i, h2⟩).kubernetesVersion =
        some (match (w.values.workers.get ⟨i, h1⟩).kubernetes with
              | some k =>
                match k.version with
                | some v => v
                | none => w.values.kubernetesVersion
              | none => w.values.kubernetesVersion)) := by
  have hspec : deployedSpec w nodeLabels (Except.ok obj) patchResult operation nowStr =
      desiredWorkerSpec w.values nodeLabels obj w.worker.metadata.nspace := rfl
  refine ⟨rfl, rfl, rfl, rfl, rfl, ?_, ?_⟩
  · rw [hspec]
    simp [desiredWorkerSpec, buildPools]
  · intro i h1 h2
    have hpool : (deployedSpec w nodeLabels (Except.ok obj) patchResult operation
        nowStr).pools.get ⟨i, h2⟩ =
        buildPool w.values nodeLabels obj (w.values.workers.get ⟨i, h1⟩) := by
      simp only [hspec, desiredWorkerSpec, buildPools, List.get_eq_getElem,
        List.getElem_map]
    rw [hpool]
    refine ⟨rfl, ?_, ?_⟩
    · simp only [buildPool]
    · simp only [buildPool]

/-- witness for C1 at the sample configuration: the single pool gets its user
data from the operating system config map and its Kubernetes version from
Values. -/
theorem C1_deploy_desired_spec_witness :
    ((deployedSpec sampleComponent sampleNodeLabels (Except.ok emptyWorkerResource)
        (Except.ok ()) "reconcile" "t0").pools.get
      ⟨0, by decide⟩).userData = "osc-content" ∧
    ((deployedSpec sampleComponent sampleNodeLabels (Except.ok emptyWorkerResource)
        (Except.ok ()) "reconcile" "t0").pools.get
      ⟨0, by decide⟩).kubernetesVersion = some "1.27.0" := by
  have h := (C1_deploy_desired_spec sampleComponent sampleNodeLabels
    emptyWorkerResource (Except.ok ()) "reconcile" "t0").2.2.2.2.2.2
    0 (by decide) (by decide)
  exact ⟨h.2.1.trans (by decide), h.2.2.trans (by decide)⟩

/-- C9: a pool's node template is reused from the previously retrieved Worker
exactly when the first pool of that object with the same name has a non-nil node
template and the same machine type; otherwise it is rebuilt from the CloudProfile
machine type capacities when the machine type is found in Values.MachineTypes and
is nil when not; findNodeTemplateAndMachineTypeByPoolName returns the first
matching pool's fields and (none, empty) when no pool matches. -/
theorem C9_node_template_selection (values : Values)
    (nodeLabels : CoreWorkerPool → Bool → List (String × String))
    (obj : WorkerResource) (wp : CoreWorkerPool) :
    (∀ nt, findNodeTemplateAndMachineTypeByPoolName obj wp.name =
        (some nt, wp.machine.type) →
      (buildPool values nodeLabels obj wp).nodeTemplate = some nt) ∧
    ((findNodeTemplateAndMachineTypeByPoolName obj wp.name).1 = none ∨
        (findNodeTemplateAndMachineTypeByPoolName obj wp.name).2 ≠ wp.machine.type →
      (buildPool values nodeLabels obj wp).nodeTemplate =
        (FindMachineTypeByName values.machineTypes wp.machine.type).map
          nodeTemplateOfMachineType) ∧
    (obj.spec.pools.find? (fun p => p.name == wp.name) = none →
      findNodeTemplateAndMachineTypeByPoolName obj wp.name = (none, "")) ∧
    (∀ q, obj.spec.pools.find? (fun p => p.name == wp.name) = some q →
      findNodeTemplateAndMachineTypeByPoolName obj wp.name =
        (q.nodeTemplate, q.machineType)) := by
  refine ⟨?_, ?_, ?_, ?_⟩
  · intro nt hfind
    have hcond : ¬((findNodeTemplateAndMachineTypeByPoolName obj wp.name).1 = none ∨
        (findNodeTemplateAndMachineTypeByPoolName obj wp.name).2 ≠ wp.machine.type) := by
      rw [hfind]
      simp
    simp only [buildPool, if_neg hcond]
    rw [hfind]
  · intro hcond
    simp only [buildPool, if_pos hcond]
    cases FindMachineTypeByName values.machineTypes wp.machine.type <;> simp
  · intro hnone
    simp [findNodeTemplateAndMachineTypeByPoolName, hnone]
  · intro q hq
    simp [findNodeTemplateAndMachineTypeByPoolName, hq]

/-- witness for C9: a previous object whose pool matches by name and machine type
has its node template reused, and one with no matching pool leads to a rebuild
from the machine types list. -/
theorem C9_node_template_selection_witness :
    (buildPool sampleValues sampleNodeLabels
        { metadata := { name := "worker", nspace := "shoot--foo--bar",
                        labels := [], annotations := [] }
          spec := { emptyWorkerSpec with pools :=
            [{ name := "pool-a", minimum := 1, maximum := 3,
               maxSurge := .intVal 1, maxUnavailable := .intVal 0,
               annotations := [], labels := [], taints := [],
               machineType := "m5.large",
               machineImage := { name := "gardenlinux", version := "1.0" },
               nodeTemplate := some { capacity := [("cpu", "2")] },
               providerConfig := none, userData := "", volume := none,
               dataVolumes := [], kubeletDataVolumeName := none,
               kubernetesVersion := some "1.26.0", zones := [],
               machineControllerManagerSettings := none,
               architecture := none }] }
          status := emptyWorkerStatus }
        samplePool).nodeTemplate = some { capacity := [("cpu", "2")] } ∧
    (buildPool sampleValues sampleNodeLabels emptyWorkerResource
        samplePool).nodeTemplate =
      some (nodeTemplateOfMachineType
        { name := "m5.large", cpu := "2", gpu := "0", memory := "8Gi" }) := by
  constructor
  · exact (C9_node_template_selection sampleValues sampleNodeLabels
      { metadata := { name := "worker", nspace := "shoot--foo--bar",
                      labels := [], annotations := [] }
        spec := { emptyWorkerSpec with pools :=
          [{ name := "pool-a", minimum := 1, maximum := 3,
             maxSurge := .intVal 1, maxUnavailable := .intVal 0,
             annotations := [], labels := [], taints := [],
             machineType := "m5.large",
             machineImage := { name := "gardenlinux", version := "1.0" },
             nodeTemplate := some { capacity := [("cpu", "2")] },
             providerConfig := none, userData := "", volume := none,
             dataVolumes := [], kubeletDataVolumeName := none,
             kubernetesVersion := some "1.26.0", zones := [],
             machineControllerManagerSettings := none,
             architecture := none }] }
        status := emptyWorkerStatus }
      samplePool).1 { capacity := [("cpu", "2")] } (by decide)
  · exact ((C9_node_template_selection sampleValues sampleNodeLabels
      emptyWorkerResource samplePool).2.1 (Or.inl (by decide))).trans (by decide)

/-- a ShootState whose only gardener resource-data entry has type machine-state
but a different name. -/
def typeOnlyShootState : ShootState :=
  { spec :=
      { gardener := [{ name := "foo", rtype := "machine-state", data := { raw := [1, 2] } }]
        extensions := [] } }

/-- a ShootState holding the canonical machine-state entry (named machine-state,
of type machine-state). -/
def machineShootState : ShootState :=
  { spec :=
      { gardener :=
          [{ name := "machine-state", rtype := "machine-state", data := { raw := [7] } }]
        extensions := [] } }

/-- C3 counterexample: this ShootState's gardener resource-data list contains an
entry of type machine-state, yet Restore passes the extensions state list through
unchanged (the lookup is by entry name, not type), contrary to the claim that
such an entry is decompressed and upserted. -/
theorem C3_counterexample_type_only_entry :
    typeOnlyShootState.spec.gardener.map GardenerResourceData.rtype
      = [DataTypeMachineState] ∧
    (Restore sampleComponent (fun b => Except.ok b)
        typeOnlyShootState).frameworkCall = some typeOnlyShootState ∧
    typeOnlyShootState.spec.extensions = [] := by
  refine ⟨by decide, ?_, by decide⟩
  decide

/-- C3 (amended): when the gardener resource-data list has an entry named
machine-state whose type is machine-state, Restore decompresses its data and
delegates to the framework a copy whose extensions list carries the upserted
Worker state, returning the decompression error without calling the framework
when decompression fails; when no entry is named machine-state, or the entry so
named has a different type, the extensions state list is passed through
unchanged. -/
theorem C3_restore_machine_state (w : WorkerComponent)
    (decompress : List Nat → Except String (List Nat)) (st : ShootState) :
    (∀ ms, gardenerResourceDataListGet st.spec.gardener DataTypeMachineState = some ms →
      ms.rtype = DataTypeMachineState →
      ((∀ e, decompress ms.data.raw = Except.error e →
          (Restore w decompress st).retErr = some e ∧
          (Restore w decompress st).frameworkCall = none) ∧
       (∀ b, decompress ms.data.raw = Except.ok b →
          (Restore w decompress st).retErr = none ∧
          (Restore w decompress st).frameworkCall =
            some { spec :=
              { gardener := st.spec.gardener
                extensions :=
                  extensionResourceStateListUpsert st.spec.extensions
                    { kind := WorkerResourceKind
                      name := some w.worker.metadata.name
                      purpose := none
                      state := some { raw := b } } } }))) ∧
    (gardenerResourceDataListGet st.spec.gardener DataTypeMachineState = none →
      (Restore w decompress st).frameworkCall = some st) ∧
    (∀ ms, gardenerResourceDataListGet st.spec.gardener DataTypeMachineState = some ms →
      ms.rtype ≠ DataTypeMachineState →
      (Restore w decompress st).frameworkCall = some st) := by
  refine ⟨?_, ?_, ?_⟩
  · intro ms hget htype
    constructor
    · intro e hdec
      constructor <;> simp [Restore, hget, htype, hdec]
    · intro b hdec
      constructor <;> simp [Restore, hget, htype, hdec]
  · intro hget
    simp [Restore, hget]
  · intro ms hget htype
    simp [Restore, hget, htype]

/-- witness for C3 at the canonical machine-state entry with the identity
decompressor. -/
theorem C3_restore_machine_state_witness :
    (Restore sampleComponent (fun b => Except.ok b)
        machineShootState).frameworkCall =
      some { spec :=
        { gardener := machineShootState.spec.gardener
          extensions :=
            [{ kind := "Worker", name := some "worker", purpose := none,
               state := some { raw := [7] } }] } } := by
  have h := (((C3_restore_machine_state sampleComponent (fun b => Except.ok b)
      machineShootState).1
      { name := "machine-state", rtype := "machine-state", data := { raw := [7] } }
      (by decide) rfl).2 [7] rfl).2
  exact h.trans (by decide)

end GardenerWorker
